import Mathlib

/-!
Shallow embedding of the session-lifecycle and state-synchronization layer of
`src/server.js` (a WhatsApp gateway built on express + socket.io + baileys).

The registry state consists of three process-wide maps keyed by session id
(`connections`, `recentMessages`, `qrCodes`, lines 48-52 of the source), here
modelled as functions `String → Option _` (a JS object field read yields
`undefined` when absent, modelled as `none`; `delete` sets the key back to
`none`).  The protocol engine (baileys) is external: its events
(`connection.update` with `qr` / `open` / `close`, `messages.upsert`) are
modelled as explicit handler functions on the registry state, translated from
the callbacks wired in `startWhatsAppConnection` (lines 55-168), and the
fallible external calls (`sock.logout()`, `connection.sendMessage(...)`) are
passed in as `Except`-valued arguments.
-/

/-- A WhatsApp user identity, as exposed by the engine on an open connection
(`sock.user`). -/
structure WAUser where
  id : String
deriving DecidableEq, Repr

/-- One live protocol-engine connection object (`sock = makeWASocket(...)`,
line 70).  `handleId` identifies the concrete engine instance so that distinct
`makeWASocket` calls yield distinct handles; `user` is `sock.user`, absent
until the engine opens the connection. -/
structure Sock where
  handleId : Nat
  user : Option WAUser
deriving DecidableEq, Repr

/-- The key of an inbound message (`msg.key`), carrying the `fromMe` flag. -/
structure MsgKey where
  fromMe : Bool
  keyId : Nat
deriving DecidableEq, Repr

/-- An inbound WhatsApp message as it appears in a `messages.upsert` batch:
`key` may be missing (`msg.key` falsy), `content` abstracts the payload. -/
structure WAMsg where
  key : Option MsgKey
  content : Nat
deriving DecidableEq, Repr

/-- Pointwise update of a string-keyed map, as JS `obj[k] = v` /
`delete obj[k]` (the latter is `mapUpdate m k none`). -/
def mapUpdate {α : Type} (m : String → Option α) (k : String) (v : Option α) :
    String → Option α :=
  fun x => if x = k then v else m x

/-- The process-wide mutable state of `server.js`:
`connections`, `recentMessages` and `qrCodes` are the three global maps
(lines 48-52).  `pending` records session ids for which a
`startWhatsAppConnection` call has passed the route guard but is still
suspended at `await useMultiFileAuthState` (line 64), i.e. before the handle
is stored at line 166.  `nextHandle` supplies fresh engine-instance
identities and `created` logs, in order, the session id of every
`makeWASocket` call that has completed. -/
structure ServerState where
  connections : String → Option Sock
  recentMessages : String → Option (List WAMsg)
  qrCodes : String → Option String
  pending : List String
  nextHandle : Nat
  created : List String

/-- The state at process start: all three maps empty, nothing in flight. -/
def initState : ServerState :=
  { connections := fun _ => none
    recentMessages := fun _ => none
    qrCodes := fun _ => none
    pending := []
    nextHandle := 0
    created := [] }

/-- Completion of `startWhatsAppConnection(sessionId, ...)` (lines 55-168)
as seen by the registry: a fresh engine connection is constructed
(`makeWASocket`, line 70; `sock.user` not yet set) and stored unconditionally
at `connections[sessionId] = sock` (line 166).  Note the function itself has
no already-active guard; that guard lives only in the HTTP route. -/
def startWhatsAppConnection (s : ServerState) (sid : String) :
    ServerState × Sock :=
  let sock : Sock := { handleId := s.nextHandle, user := none }
  ({ s with
      connections := mapUpdate s.connections sid (some sock)
      nextHandle := s.nextHandle + 1
      created := s.created ++ [sid] }, sock)

/-- Events emitted to a socket.io push subscriber (`io.to(socketId).emit`). -/
inductive PushEvent
  | qr (qrCode : String)
  | connectionOpen (user : Option WAUser) (connected : Bool)
  | connectionClose (shouldReconnect : Bool) (statusCode : Option Nat)
  | messages (data : List WAMsg)
deriving DecidableEq, Repr

/-- Constant `DisconnectReason.loggedOut` of the external baileys library: the HTTP
status code 401 used by the engine to signal a terminal logout. -/
def DisconnectReason_loggedOut : Nat := 401

/-- The `qr` branch of the `connection.update` handler (lines 82-93): store
the rendered image in `qrCodes[sessionId]` and, when a push subscriber is
attached, emit a `qr` event to it.  `qrCodeDataURL` is the output of the
external renderer `qrcode.toDataURL(qr)`. -/
def onQR (s : ServerState) (sid : String) (qrCodeDataURL : String)
    (socketId : Option Nat) : ServerState × List (Nat × PushEvent) :=
  ({ s with qrCodes := mapUpdate s.qrCodes sid (some qrCodeDataURL) },
   match socketId with
   | some sock => [(sock, PushEvent.qr qrCodeDataURL)]
   | none => [])

/-- The `open` branch of the `connection.update` handler (lines 95-107):
clear the pending QR code and, when a push subscriber is attached, emit
`connection-open` carrying `sock.user` and `connected: true`. -/
def onOpen (s : ServerState) (sid : String) (user : Option WAUser)
    (socketId : Option Nat) : ServerState × List (Nat × PushEvent) :=
  ({ s with qrCodes := mapUpdate s.qrCodes sid none },
   match socketId with
   | some sock => [(sock, PushEvent.connectionOpen user true)]
   | none => [])

/-- The `close` branch of the `connection.update` handler (lines 109-131):
`statusCode = lastDisconnect?.error?.output?.statusCode` (absent modelled as
`none`), `shouldReconnect = statusCode !== DisconnectReason.loggedOut`.
A `connection-close` event goes to the subscriber when one is attached.
If not reconnecting, all three map entries for the session are deleted
(lines 124-126); otherwise `startWhatsAppConnection(sessionId, socketId)` is
re-invoked immediately, constructing a replacement engine connection. -/
def onClose (s : ServerState) (sid : String) (statusCode : Option Nat)
    (socketId : Option Nat) : ServerState × List (Nat × PushEvent) :=
  let shouldReconnect : Bool := statusCode ≠ some DisconnectReason_loggedOut
  let emitted : List (Nat × PushEvent) :=
    match socketId with
    | some sock => [(sock, PushEvent.connectionClose shouldReconnect statusCode)]
    | none => []
  if shouldReconnect then
    ((startWhatsAppConnection s sid).1, emitted)
  else
    ({ s with
        connections := mapUpdate s.connections sid none
        qrCodes := mapUpdate s.qrCodes sid none
        recentMessages := mapUpdate s.recentMessages sid none }, emitted)

/-- The filter applied to an upsert batch (line 148):
`msg => msg.key && !msg.key.fromMe`. -/
def isInboundMsg (m : WAMsg) : Bool :=
  match m.key with
  | some k => !k.fromMe
  | none => false

/-- The buffer update of the `messages.upsert` handler (lines 147-157): keep
only messages with a key and not from us, push them onto the buffer, and when
the result exceeds 50 entries keep the last 50 (`slice(-50)`). -/
def messagesUpsert (buf : List WAMsg) (msgs : List WAMsg) : List WAMsg :=
  let newMessages := msgs.filter isInboundMsg
  if 0 < newMessages.length then
    let pushed := buf ++ newMessages
    if 50 < pushed.length then pushed.drop (pushed.length - 50) else pushed
  else buf

/-- The full `messages.upsert` handler (lines 138-163): initialise the buffer
for the session when absent (modelled by `getD []`), apply the filtered
bounded push, and forward the whole raw batch to the push subscriber when one
is attached (line 161). -/
def onMessagesUpsert (s : ServerState) (sid : String) (data : List WAMsg)
    (socketId : Option Nat) : ServerState × List (Nat × PushEvent) :=
  let buf := (s.recentMessages sid).getD []
  ({ s with
      recentMessages := mapUpdate s.recentMessages sid
        (some (messagesUpsert buf data)) },
   match socketId with
   | some sock => [(sock, PushEvent.messages data)]
   | none => [])

/-- Response of `GET /api/status/:sessionId` (lines 173-185). -/
structure StatusResp where
  connected : Bool
  user : Option WAUser
deriving DecidableEq, Repr

/-- Route `GET /api/status/:sessionId` (lines 173-185): `connected` is true exactly
when a `connections` entry exists; `user` is `connection.user` with the
fallback object of id `unknown`. -/
def getStatus (s : ServerState) (sid : String) : StatusResp :=
  match s.connections sid with
  | some conn => { connected := true, user := some (conn.user.getD ⟨"unknown"⟩) }
  | none => { connected := false, user := none }

/-- Response of `GET /api/messages/:sessionId` (lines 225-237). -/
inductive MessagesResp
  | ok (messages : List WAMsg)
  | notFound (error : String)
deriving DecidableEq, Repr

/-- HTTP status of a messages response: 404 on the not-found branch
(line 229), 200 otherwise. -/
def MessagesResp.httpStatus : MessagesResp → Nat
  | MessagesResp.ok _ => 200
  | MessagesResp.notFound _ => 404

/-- Route `GET /api/messages/:sessionId` (lines 225-237): 404 when no `connections`
entry exists; otherwise return the current buffer (empty when absent) and
reset it to the empty list. -/
def getMessagesHandler (s : ServerState) (sid : String) :
    ServerState × MessagesResp :=
  match s.connections sid with
  | none => (s, MessagesResp.notFound "Sessão não encontrada")
  | some _ =>
    let messages := (s.recentMessages sid).getD []
    ({ s with recentMessages := mapUpdate s.recentMessages sid (some []) },
     MessagesResp.ok messages)

/-- Response of `POST /api/disconnect/:sessionId` (lines 240-260). -/
inductive DisconnectResp
  | ok (message : Option String)
  | err (status : Nat) (error : String)
deriving DecidableEq, Repr

/-- Route `POST /api/disconnect/:sessionId` (lines 240-260): success immediately
when no entry exists; otherwise `await sock.logout()` (outcome passed in as
`logoutResult`), then on success delete all three map entries; on failure
return 500 with the error message and leave the state untouched. -/
def disconnectHandler (s : ServerState) (sid : String)
    (logoutResult : Except String Unit) : ServerState × DisconnectResp :=
  match s.connections sid with
  | none => (s, DisconnectResp.ok (some "Sessão já está desconectada"))
  | some _ =>
    match logoutResult with
    | Except.ok _ =>
      ({ s with
          connections := mapUpdate s.connections sid none
          qrCodes := mapUpdate s.qrCodes sid none
          recentMessages := mapUpdate s.recentMessages sid none },
       DisconnectResp.ok none)
    | Except.error e => (s, DisconnectResp.err 500 e)

/-- Response of `POST /api/send-message/:sessionId` (lines 263-282). -/
inductive SendResp
  | ok
  | notFound (message : String)
  | failure (status : Nat) (message : String)
deriving DecidableEq, Repr

/-- Destination normalization of line 274: the replace call with regex
`[^0-9]` keeps exactly the ASCII digits of `number`, and the fixed domain
suffix `@s.whatsapp.net` is appended. -/
def formatNumber (number : String) : String :=
  String.mk (number.data.filter Char.isDigit) ++ "@s.whatsapp.net"

/-- Route `POST /api/send-message/:sessionId` (lines 263-282): 404 when no entry
exists; otherwise delegate to `connection.sendMessage(formattedNumber,
{text: message})` (outcome supplied as the function `send`); any failure is
caught and surfaced as a fixed generic 500 response that does not carry the
underlying protocol error. -/
def sendMessageHandler (s : ServerState) (sid : String)
    (number message : String) (send : String → String → Except String Unit) :
    SendResp :=
  match s.connections sid with
  | none => SendResp.notFound "Sessão não encontrada"
  | some _ =>
    match send (formatNumber number) message with
    | Except.ok _ => SendResp.ok
    | Except.error _ => SendResp.failure 500 "Erro ao enviar mensagem"

/-- Response of `POST /api/start-session/:sessionId` (lines 188-222). -/
inductive StartResp
  | alreadyActive (connected : Bool) (message : String)
  | qr (qrCode : String)
  | timeout (error : String) (connected : Bool)
  | serverError (error : String)
deriving DecidableEq, Repr

/-- HTTP status of a start-session response: 408 on the QR-wait timeout
(line 211), 500 on a start failure (line 220), 200 otherwise. -/
def StartResp.httpStatus : StartResp → Nat
  | StartResp.alreadyActive _ _ => 200
  | StartResp.qr _ => 200
  | StartResp.timeout _ _ => 408
  | StartResp.serverError _ => 500

/-- The `setInterval(. , 500)` polling loop of lines 204-217: at each 500 ms
tick it first reads `qrCodes[sessionId]` (abstracted as `qrAt`, the value of
that entry at tick number `attempts`) and responds with the QR code when set;
otherwise, once `attempts` has reached 10, it responds 408.  `attempts`
starts at 0, so at most 11 ticks (≈5 seconds) occur. -/
def pollQR (qrAt : Nat → Option String) (attempts : Nat) : StartResp :=
  match qrAt attempts with
  | some q => StartResp.qr q
  | none =>
    if 10 ≤ attempts then
      StartResp.timeout "Tempo esgotado ao esperar pelo QR code" false
    else pollQR qrAt (attempts + 1)
termination_by 11 - attempts
decreasing_by
  simp only [not_le] at *
  omega

/-- Route `POST /api/start-session/:sessionId` (lines 188-222), single caller view:
return `{connected:true}` at once when a `connections` entry already exists
(lines 193-198); otherwise run `startWhatsAppConnection` and enter the QR
polling loop. -/
def startSessionHandler (s : ServerState) (sid : String)
    (qrAt : Nat → Option String) : ServerState × StartResp :=
  if (s.connections sid).isSome then
    (s, StartResp.alreadyActive true "Sessão já está ativa")
  else
    ((startWhatsAppConnection s sid).1, pollQR qrAt 0)

/-- The two atomic phases of a `POST /api/start-session/:sessionId` call with
respect to the single-threaded event loop.  `check` is the route guard of
line 193 together with entering `startWhatsAppConnection` up to its first
`await` (line 64): when no entry exists the call becomes pending.  `finish`
is the resumption after the `await`: the engine connection is constructed and
stored (lines 70 and 166).  In the source nothing re-checks the registry
between the two phases. -/
inductive StartStep
  | check (sid : String)
  | finish (sid : String)
deriving DecidableEq, Repr

/-- One atomic phase of a start call.  A `check` for an id with an existing
entry responds already-active and schedules nothing; otherwise the call is
recorded as pending.  A `finish` resumes one pending call for the id and
unconditionally constructs and stores a fresh engine connection. -/
def stepStart (s : ServerState) : StartStep → ServerState
  | StartStep.check sid =>
    if (s.connections sid).isSome then s
    else { s with pending := s.pending ++ [sid] }
  | StartStep.finish sid =>
    if sid ∈ s.pending then
      (startWhatsAppConnection { s with pending := s.pending.erase sid } sid).1
    else s

/-- Run an interleaving of start-call phases on the event loop. -/
def runStartTrace (s : ServerState) (tr : List StartStep) : ServerState :=
  tr.foldl stepStart s

/-- How many engine connections (`makeWASocket` calls) have been constructed
for a given session id. -/
def handlesCreatedFor (s : ServerState) (sid : String) : Nat :=
  s.created.count sid

/-! ## Shared concrete states and helper lemmas -/

/-- A state in which one session (id `s1`) has been started: registry entry
present (handle 0), no QR pending, no messages yet, no open event yet. -/
def startedState : ServerState := (startWhatsAppConnection initState "s1").1

/-- The i-th inbound test message: it has a key and is not from us. -/
def mkInbound (i : Nat) : WAMsg :=
  { key := some { fromMe := false, keyId := i }, content := i }

/-- Feed a list of upsert batches through the buffer update in order. -/
def feedBatches (batches : List (List WAMsg)) (buf : List WAMsg) : List WAMsg :=
  batches.foldl messagesUpsert buf

/-- `startedState` after an upsert delivering two inbound messages. -/
def bufferedState : ServerState :=
  (onMessagesUpsert startedState "s1" [mkInbound 0, mkInbound 1] none).1

/-- The interleaving in which a second start call for the same id passes
the route guard while the first is still suspended at its credential-load
`await`: both calls then resume and each constructs an engine connection. -/
def raceTrace : List StartStep :=
  [StartStep.check "s1", StartStep.check "s1",
   StartStep.finish "s1", StartStep.finish "s1"]

/-- The sequential interleaving: the second call arrives only after the
first has completed and registered its handle. -/
def sequentialTrace : List StartStep :=
  [StartStep.check "s1", StartStep.finish "s1",
   StartStep.check "s1", StartStep.finish "s1"]

/-! ## C1 -/

/-- C1 counterexample: running the racing interleaving from the empty state
constructs two engine connections for session `s1`, not exactly one — the
route guard re-checks nothing after the suspension inside
`startWhatsAppConnection`, so both calls construct a handle. -/
theorem c1_counterexample :
    handlesCreatedFor (runStartTrace initState raceTrace) "s1" = 2 ∧
    ¬ handlesCreatedFor (runStartTrace initState raceTrace) "s1" = 1 := by
  decide

/-- C1 (amended): a `startSession(id)` call whose registry check runs after
an entry for `id` exists is a no-op (no pending work, hence no duplicate
handle), a resumption with no pending call is a no-op, and the sequential
double-start constructs exactly one handle; single-flight fails only for a
second call checked while the first is still in progress. -/
theorem c1_single_flight_after_completion :
    (∀ s sid, (s.connections sid).isSome = true →
      stepStart s (StartStep.check sid) = s) ∧
    (∀ s sid, sid ∉ s.pending → stepStart s (StartStep.finish sid) = s) ∧
    handlesCreatedFor (runStartTrace initState sequentialTrace) "s1" = 1 := by
  refine ⟨?_, ?_, ?_⟩
  · intro s sid h
    simp [stepStart, h]
  · intro s sid h
    simp [stepStart, h]
  · decide

/-- Witness for C1 (amended) at concrete inputs: a check for the already
started session changes nothing, and a stray resumption on the initial
state changes nothing. -/
theorem c1_single_flight_after_completion_witness :
    stepStart startedState (StartStep.check "s1") = startedState ∧
    stepStart initState (StartStep.finish "s1") = initState :=
  ⟨c1_single_flight_after_completion.1 startedState "s1" (by decide),
   c1_single_flight_after_completion.2.1 initState "s1" (by decide)⟩

/-! ## C2 -/

/-- A reachable state in which session `s1` has been started and holds a
pending QR code: the Pairing phase (entry registered, no open event yet). -/
def pairingState : ServerState :=
  (onQR startedState "s1" "qr-image-data" none).1

/-- C2 counterexample: in the Pairing phase (QR pending, no open event has
occurred) the status route already reports `connected = true`, because the
handle is stored in `connections` at the end of `startWhatsAppConnection`,
before any open event; the claim says `connected = false` there. -/
theorem c2_counterexample :
    (pairingState.qrCodes "s1").isSome = true ∧
    (pairingState.connections "s1").isSome = true ∧
    ¬ (getStatus pairingState "s1").connected = false := by
  decide

/-- C2 (amended): `getStatus(id).connected` is true exactly when the
registry holds an entry for `id` — which is already the case throughout the
Pairing phase — and false only when no entry exists. -/
theorem c2_status_reflects_registry_entry :
    ∀ s sid, (getStatus s sid).connected = (s.connections sid).isSome := by
  intro s sid
  unfold getStatus
  cases s.connections sid <;> simp

/-! ## C3 -/

/-- C3 counterexample: disconnect on a started session whose logout call
fails returns a 500 error and leaves the registry entry in place, so the
registry does not hold "no entry for id" after every disconnect return. -/
theorem c3_counterexample :
    (disconnectHandler startedState "s1" (Except.error "logout failed")).2 =
      DisconnectResp.err 500 "logout failed" ∧
    ¬ (disconnectHandler startedState "s1"
        (Except.error "logout failed")).1.connections "s1" = none := by
  decide

/-- C3 (amended): disconnect on an absent entry reports success and changes
nothing; on an existing entry with a succeeding logout it removes the
registry entry, the QR cache entry and the message buffer, regardless of
prior state, and reports success; but when logout fails it returns a 500
error and retains the state unchanged. -/
theorem c3_disconnect_removes_entry :
    (∀ s sid r, s.connections sid = none →
      disconnectHandler s sid r =
        (s, DisconnectResp.ok (some "Sessão já está desconectada"))) ∧
    (∀ s sid c, s.connections sid = some c →
      (disconnectHandler s sid (Except.ok ())).1.connections sid = none ∧
      (disconnectHandler s sid (Except.ok ())).1.qrCodes sid = none ∧
      (disconnectHandler s sid (Except.ok ())).1.recentMessages sid = none ∧
      (disconnectHandler s sid (Except.ok ())).2 = DisconnectResp.ok none) ∧
    (∀ s sid c e, s.connections sid = some c →
      disconnectHandler s sid (Except.error e) =
        (s, DisconnectResp.err 500 e)) := by
  refine ⟨?_, ?_, ?_⟩
  · intro s sid r h
    simp [disconnectHandler, h]
  · intro s sid c h
    simp [disconnectHandler, h, mapUpdate]
  · intro s sid c e h
    simp [disconnectHandler, h]

/-- Witness for C3 (amended) at concrete inputs: disconnect on the empty
registry succeeds, and disconnect of the started session with a succeeding
logout removes its entry. -/
theorem c3_disconnect_removes_entry_witness :
    disconnectHandler initState "s1" (Except.ok ()) =
      (initState, DisconnectResp.ok (some "Sessão já está desconectada")) ∧
    (disconnectHandler startedState "s1" (Except.ok ())).1.connections "s1" =
      none :=
  ⟨c3_disconnect_removes_entry.1 initState "s1" (Except.ok ()) rfl,
   (c3_disconnect_removes_entry.2.1 startedState "s1"
      { handleId := 0, user := none } (by decide)).1⟩

/-! ## C4 -/

set_option maxRecDepth 8192 in
/-- C4: the inbound message buffer stays bounded at 50 entries across any
upsert batch, and feeding 60 single-message inbound events from an empty
buffer leaves exactly the most recent 50 messages, oldest first (the first
10 are evicted, order is preserved). -/
theorem c4_buffer_bounded_fifo :
    (∀ buf msgs, buf.length ≤ 50 → (messagesUpsert buf msgs).length ≤ 50) ∧
    feedBatches ((List.range 60).map (fun i => [mkInbound i])) [] =
      ((List.range 60).map mkInbound).drop 10 := by
  constructor
  · intro buf msgs h
    simp only [messagesUpsert]
    split_ifs with h1 h2
    · simp only [List.length_drop]
      omega
    · omega
    · exact h
  · decide

/-- Witness for C4 at a concrete input: one inbound message on the empty
buffer keeps the buffer within the bound. -/
theorem c4_buffer_bounded_fifo_witness :
    (messagesUpsert [] [mkInbound 0]).length ≤ 50 :=
  c4_buffer_bounded_fifo.1 [] [mkInbound 0] (by decide)

/-! ## C5 -/

/-- C5: draining an unknown session id returns the 404 not-found error and
leaves the state unchanged; draining an existing session returns the whole
current buffer, resets it to empty without touching the registry map, and an
immediately following drain returns the empty list. -/
theorem c5_drain_atomic :
    (∀ s sid, s.connections sid = none →
      getMessagesHandler s sid = (s, MessagesResp.notFound "Sessão não encontrada") ∧
      MessagesResp.httpStatus (getMessagesHandler s sid).2 = 404) ∧
    (∀ s sid c, s.connections sid = some c →
      (getMessagesHandler s sid).2 =
        MessagesResp.ok ((s.recentMessages sid).getD []) ∧
      (getMessagesHandler s sid).1.recentMessages sid = some [] ∧
      (getMessagesHandler s sid).1.connections = s.connections ∧
      (getMessagesHandler (getMessagesHandler s sid).1 sid).2 =
        MessagesResp.ok []) := by
  constructor
  · intro s sid h
    simp [getMessagesHandler, h, MessagesResp.httpStatus]
  · intro s sid c h
    refine ⟨?_, ?_, ?_, ?_⟩ <;>
      simp [getMessagesHandler, h, mapUpdate]

/-- Witness for C5 at a concrete input: the session holding two buffered
inbound messages yields them on the first drain and nothing on the second,
and draining an id absent from the empty registry is a 404. -/
theorem c5_drain_atomic_witness :
    getMessagesHandler initState "s1" =
      (initState, MessagesResp.notFound "Sessão não encontrada") ∧
    (getMessagesHandler bufferedState "s1").2 =
      MessagesResp.ok [mkInbound 0, mkInbound 1] ∧
    (getMessagesHandler (getMessagesHandler bufferedState "s1").1 "s1").2 =
      MessagesResp.ok [] :=
  ⟨(c5_drain_atomic.1 initState "s1" rfl).1,
   ((c5_drain_atomic.2 bufferedState "s1" { handleId := 0, user := none }
      (by decide)).1).trans (by decide),
   (c5_drain_atomic.2 bufferedState "s1" { handleId := 0, user := none }
      (by decide)).2.2.2⟩

/-! ## C6 -/

/-- C6: a close event whose status code is the logged-out code removes the
registry entry, the pending QR image and the message buffer, and delivers a
close event with `shouldReconnect = false` to an attached subscriber; a close
event with any other cause constructs a fresh engine connection for the same
id automatically and registers it. -/
theorem c6_close_teardown_or_reconnect :
    (∀ s sid sockId,
      (onClose s sid (some DisconnectReason_loggedOut) sockId).1.connections sid = none ∧
      (onClose s sid (some DisconnectReason_loggedOut) sockId).1.qrCodes sid = none ∧
      (onClose s sid (some DisconnectReason_loggedOut) sockId).1.recentMessages sid = none) ∧
    (∀ s sid k,
      (onClose s sid (some DisconnectReason_loggedOut) (some k)).2 =
        [(k, PushEvent.connectionClose false (some DisconnectReason_loggedOut))]) ∧
    (∀ s sid code sockId, code ≠ some DisconnectReason_loggedOut →
      (onClose s sid code sockId).1.connections sid =
        some { handleId := s.nextHandle, user := none } ∧
      (onClose s sid code sockId).1.created = s.created ++ [sid]) := by
  refine ⟨?_, ?_, ?_⟩
  · intro s sid sockId
    refine ⟨?_, ?_, ?_⟩ <;> simp [onClose, mapUpdate]
  · intro s sid k
    simp [onClose]
  · intro s sid code sockId h
    constructor <;> simp [onClose, h, startWhatsAppConnection, mapUpdate]

/-- Witness for C6 at concrete inputs: logged-out close of the started
session fans out the non-reconnect close event, and a close with the
connection-lost code 408 registers a replacement handle. -/
theorem c6_close_teardown_or_reconnect_witness :
    (onClose startedState "s1" (some DisconnectReason_loggedOut) (some 7)).2 =
      [(7, PushEvent.connectionClose false (some DisconnectReason_loggedOut))] ∧
    (onClose startedState "s1" (some 408) none).1.created =
      startedState.created ++ ["s1"] :=
  ⟨c6_close_teardown_or_reconnect.2.1 startedState "s1" 7,
   (c6_close_teardown_or_reconnect.2.2 startedState "s1" (some 408) none
      (by decide)).2⟩

/-! ## C7 -/

/-- C7: the send route normalizes the example destination by stripping every
non-digit and appending the fixed domain suffix; on an active session the
response is a function of the delegated call at exactly the normalized
address; and a protocol-layer failure is surfaced as the fixed generic 500
send failure, independent of the underlying error. -/
theorem c7_send_normalizes_and_masks_errors :
    formatNumber "+1 (555) 123-4567" = "15551234567@s.whatsapp.net" ∧
    (∀ s sid number message send c, s.connections sid = some c →
      sendMessageHandler s sid number message send =
        (match send (formatNumber number) message with
         | Except.ok _ => SendResp.ok
         | Except.error _ => SendResp.failure 500 "Erro ao enviar mensagem")) ∧
    (∀ s sid number message c e, s.connections sid = some c →
      sendMessageHandler s sid number message (fun _ _ => Except.error e) =
        SendResp.failure 500 "Erro ao enviar mensagem") := by
  refine ⟨by decide, ?_, ?_⟩
  · intro s sid number message send c h
    simp [sendMessageHandler, h]
  · intro s sid number message c e h
    simp [sendMessageHandler, h]

/-- Witness for C7 at concrete inputs: on the started session, a succeeding
delegate yields success and a failing delegate yields the generic failure. -/
theorem c7_send_normalizes_and_masks_errors_witness :
    sendMessageHandler startedState "s1" "+1 (555) 123-4567" "hello"
      (fun _ _ => Except.ok ()) = SendResp.ok ∧
    sendMessageHandler startedState "s1" "+1 (555) 123-4567" "hello"
      (fun _ _ => Except.error "socket hang up") =
      SendResp.failure 500 "Erro ao enviar mensagem" :=
  ⟨(c7_send_normalizes_and_masks_errors.2.1 startedState "s1"
      "+1 (555) 123-4567" "hello" (fun _ _ => Except.ok ())
      { handleId := 0, user := none } (by decide)).trans rfl,
   c7_send_normalizes_and_masks_errors.2.2 startedState "s1"
      "+1 (555) 123-4567" "hello" { handleId := 0, user := none }
      "socket hang up" (by decide)⟩

/-! ## C8 -/

/-- If the QR entry is still unset at every tick up to and including tick 10,
the polling loop (started at attempts = 0) responds with the 408 timeout. -/
theorem pollQR_timeout_of_none (qrAt : Nat → Option String)
    (h : ∀ n, n ≤ 10 → qrAt n = none) :
    pollQR qrAt 0 =
      StartResp.timeout "Tempo esgotado ao esperar pelo QR code" false := by
  have key : ∀ f a, 11 - a ≤ f → a ≤ 10 →
      pollQR qrAt a =
        StartResp.timeout "Tempo esgotado ao esperar pelo QR code" false := by
    intro f
    induction f with
    | zero => intro a h1 h2; omega
    | succ n ih =>
      intro a h1 h2
      rw [pollQR, h a h2]
      by_cases h3 : 10 ≤ a
      · simp [h3]
      · simp only [if_neg h3]
        exact ih (a + 1) (by omega) (by omega)
  exact key 11 0 (by omega) (by omega)

/-- If the QR entry first becomes set at tick `k ≤ 10`, the polling loop
(started at attempts = 0) responds with that QR code. -/
theorem pollQR_qr_of_first (qrAt : Nat → Option String) (k : Nat) (q : String)
    (hk : k ≤ 10) (hq : qrAt k = some q)
    (hbefore : ∀ j, j < k → qrAt j = none) :
    pollQR qrAt 0 = StartResp.qr q := by
  have key : ∀ f a, 11 - a ≤ f → a ≤ k →
      pollQR qrAt a = StartResp.qr q := by
    intro f
    induction f with
    | zero => intro a h1 h2; omega
    | succ n ih =>
      intro a h1 h2
      rcases Nat.eq_or_lt_of_le h2 with h3 | h3
      · rw [pollQR, h3, hq]
      · rw [pollQR, hbefore a h3]
        have h4 : ¬ 10 ≤ a := by omega
        simp only [if_neg h4]
        exact ih (a + 1) (by omega) (by omega)
  exact key 11 0 (by omega) (by omega)

/-- C8: a start request for an id with an existing registry entry responds
already-active with `connected = true` immediately, independent of any QR
polling; otherwise the handler polls the QR entry at 500 ms ticks: when the
QR image first appears at some tick within the 11-tick (≈5 second) bound the
response carries it, and when it never appears within the bound the response
is the 408 timeout with `connected = false` — a status distinct from the 404
used for an unknown session. -/
theorem c8_start_session_bounded_wait :
    (∀ s sid qrAt c, s.connections sid = some c →
      startSessionHandler s sid qrAt =
        (s, StartResp.alreadyActive true "Sessão já está ativa")) ∧
    (∀ s sid qrAt k q, s.connections sid = none → k ≤ 10 → qrAt k = some q →
      (∀ j, j < k → qrAt j = none) →
      (startSessionHandler s sid qrAt).2 = StartResp.qr q) ∧
    (∀ s sid qrAt, s.connections sid = none → (∀ n, n ≤ 10 → qrAt n = none) →
      (startSessionHandler s sid qrAt).2 =
        StartResp.timeout "Tempo esgotado ao esperar pelo QR code" false ∧
      StartResp.httpStatus (startSessionHandler s sid qrAt).2 = 408 ∧
      MessagesResp.httpStatus (MessagesResp.notFound "Sessão não encontrada") =
        404) := by
  refine ⟨?_, ?_, ?_⟩
  · intro s sid qrAt c h
    simp [startSessionHandler, h]
  · intro s sid qrAt k q h hk hq hbefore
    simp only [startSessionHandler, h, Option.isSome_none, Bool.false_eq_true,
      if_false]
    exact pollQR_qr_of_first qrAt k q hk hq hbefore
  · intro s sid qrAt h hnone
    simp only [startSessionHandler, h, Option.isSome_none, Bool.false_eq_true,
      if_false]
    exact ⟨pollQR_timeout_of_none qrAt hnone, by
      rw [pollQR_timeout_of_none qrAt hnone]
      rfl, rfl⟩

/-- Witness for C8 at concrete inputs: starting the already started session
responds already-active; starting a fresh id whose QR appears at tick 0
responds with that QR code; starting a fresh id whose QR never appears
responds with the 408 timeout. -/
theorem c8_start_session_bounded_wait_witness :
    startSessionHandler startedState "s1" (fun _ => none) =
      (startedState, StartResp.alreadyActive true "Sessão já está ativa") ∧
    (startSessionHandler initState "s1" (fun _ => some "qr-img")).2 =
      StartResp.qr "qr-img" ∧
    (startSessionHandler initState "s2" (fun _ => none)).2 =
      StartResp.timeout "Tempo esgotado ao esperar pelo QR code" false :=
  ⟨c8_start_session_bounded_wait.1 startedState "s1" (fun _ => none)
      { handleId := 0, user := none } (by decide),
   c8_start_session_bounded_wait.2.1 initState "s1" (fun _ => some "qr-img")
      0 "qr-img" rfl (by omega) rfl
      (fun j hj => (Nat.not_lt_zero j hj).elim),
   (c8_start_session_bounded_wait.2.2 initState "s2" (fun _ => none) rfl
      (fun n _ => rfl)).1⟩

/-! ## C9 -/

/-- C9: every message in the buffer after an upsert on a buffer of inbound
messages has a key and is not from our own identity (and came from the buffer
or the batch), so neither keyless nor own messages are ever buffered or
drained; the raw batch, unfiltered, is still delivered to an attached push
subscriber. -/
theorem c9_buffer_only_inbound :
    (∀ buf msgs m, (∀ x ∈ buf, isInboundMsg x = true) →
      m ∈ messagesUpsert buf msgs →
      isInboundMsg m = true ∧ (m ∈ buf ∨ m ∈ msgs)) ∧
    (∀ s sid data k, (onMessagesUpsert s sid data (some k)).2 =
      [(k, PushEvent.messages data)]) := by
  constructor
  · intro buf msgs m hbuf hm
    simp only [messagesUpsert] at hm
    split_ifs at hm with h1 h2
    · have hm2 := List.mem_of_mem_drop hm
      rcases List.mem_append.1 hm2 with h | h
      · exact ⟨hbuf m h, Or.inl h⟩
      · have := List.mem_filter.1 h
        exact ⟨this.2, Or.inr this.1⟩
    · rcases List.mem_append.1 hm with h | h
      · exact ⟨hbuf m h, Or.inl h⟩
      · have := List.mem_filter.1 h
        exact ⟨this.2, Or.inr this.1⟩
    · exact ⟨hbuf m hm, Or.inl hm⟩
  · intro s sid data k
    simp [onMessagesUpsert]

/-- Witness for C9 at a concrete input: the single buffered message of a
one-message batch is inbound, and the same batch is pushed raw to the
attached subscriber. -/
theorem c9_buffer_only_inbound_witness :
    isInboundMsg (mkInbound 3) = true ∧
    (onMessagesUpsert initState "s1" [mkInbound 3] (some 5)).2 =
      [(5, PushEvent.messages [mkInbound 3])] :=
  ⟨(c9_buffer_only_inbound.1 [] [mkInbound 3] (mkInbound 3)
      (fun x hx => (List.not_mem_nil x hx).elim) (by decide)).1,
   c9_buffer_only_inbound.2 initState "s1" [mkInbound 3] 5⟩

/-! ## C10 -/

/-- C10: draining a session that has a registry entry but has never received
an inbound message responds 200 with the empty message list, not an error,
and the registry map is unchanged. -/
theorem c10_drain_fresh_session_empty :
    ∀ s sid c, s.connections sid = some c → s.recentMessages sid = none →
      (getMessagesHandler s sid).2 = MessagesResp.ok [] ∧
      MessagesResp.httpStatus (getMessagesHandler s sid).2 = 200 ∧
      (getMessagesHandler s sid).1.connections = s.connections := by
  intro s sid c h1 h2
  refine ⟨?_, ?_, ?_⟩ <;>
    simp [getMessagesHandler, h1, h2, MessagesResp.httpStatus]

/-- Witness for C10 at a concrete input: draining the freshly started
session (no message ever received) yields the empty list. -/
theorem c10_drain_fresh_session_empty_witness :
    (getMessagesHandler startedState "s1").2 = MessagesResp.ok [] :=
  (c10_drain_fresh_session_empty startedState "s1"
    { handleId := 0, user := none } (by decide) (by decide)).1
